import Mathlib

/-
Verification of the RBD driver attach/detach core (cinder/volume/drivers/rbd2.py).

The development shallowly embeds the three operations of the driver subclass
RBDDriver2 — initialize_connection, _connect_device and _detach_volume — as
executable Lean functions, together with the Python data values they operate
on (dictionaries, None, truthiness, KeyError on a missing dictionary key).
External collaborators (the brick connector factory, the connector object
returned by it, the inherited base-class detach) are parameters, exactly as
the driver receives them.  Host side effects (privileged ln / rm commands,
exception logging, connector validation calls) are recorded in an explicit
effect trace, and the symlink namespace written by the driver is an explicit
filesystem state.
-/

namespace RBD2

/-- Embedded Python values, as far as the driver manipulates them: None,
strings, booleans, lists and string-keyed dictionaries (association lists,
in insertion order, as the driver only builds literal dictionaries with
distinct keys). -/
inductive PyVal where
  | pyNone
  | str (s : String)
  | boolean (b : Bool)
  | list (xs : List PyVal)
  | dict (entries : List (String × PyVal))

/-- Embedded Python exceptions, as far as the driver raises or receives them:
KeyError from a missing dictionary key, TypeError from subscripting a
non-dictionary, cinder's DeviceUnavailable, ProcessExecutionError from
utils.execute, and arbitrary connector-raised errors. -/
inductive PyErr where
  | keyError (k : String)
  | typeError (k : String)
  | deviceUnavailable (path : String)
  | processExecutionError (cmd : String) (arg : String)
  | connectorError (msg : String)
deriving DecidableEq, Repr

/-- Python subscript `v[k]` for a string key: a value looked up in a
dictionary, KeyError when the key is missing, TypeError when the value is
not a dictionary. -/
def pyGet : PyVal → String → Except PyErr PyVal
  | .dict entries, k =>
      match entries.lookup k with
      | some v => .ok v
      | none => .error (.keyError k)
  | _, k => .error (.typeError k)

/-- Python truthiness of an embedded value: None, False, the empty string,
the empty list and the empty dictionary are falsy, everything else truthy. -/
def pyTruthy : PyVal → Bool
  | .pyNone => false
  | .boolean b => b
  | .str s => s != ""
  | .list xs => !xs.isEmpty
  | .dict entries => !entries.isEmpty

/-- Python string interpolation `'%s' % v`.  Every value the driver
interpolates (volume ids) is a string, so only the first case is ever
exercised; the remaining cases render the Python str() of the value. -/
def formatVal : PyVal → String
  | .str s => s
  | .pyNone => "None"
  | .boolean true => "True"
  | .boolean false => "False"
  | .list _ => "[...]"
  | .dict _ => "\x7b...\x7d"

/-- A nullable Python string attribute (None or a string) as a PyVal. -/
def optStr : Option String → PyVal
  | some s => .str s
  | none => .pyNone

/-- The driver configuration options read by the three operations.  rbd_user
and rbd_secret_uuid are StrOpts with no default, hence nullable. -/
structure Configuration where
  rbd_pool : String
  rbd_cluster_name : String
  rbd_user : Option String
  rbd_secret_uuid : Option String
  use_multipath_for_image_xfer : Bool
  num_volume_device_scan_tries : Nat
deriving DecidableEq, Repr

/-- The volume attributes read by initialize_connection; encryption_key_id
is nullable. -/
structure Volume where
  name : String
  id : String
  encryption_key_id : Option String
deriving DecidableEq, Repr

/-- The inner data dictionary built by initialize_connection, verbatim from
the source: every key of the literal is present, auth_enabled is the Python
test `rbd_user is not None`, auth_username is the raw (possibly None)
rbd_user value, and encrypted and do_local_attach are both the Python
truthiness test `True if volume.encryption_key_id else False`. -/
def conn_data (configuration : Configuration) (hosts ports : List String)
    (volume : Volume) : List (String × PyVal) :=
  [("name", .str (configuration.rbd_pool ++ "/" ++ volume.name)),
   ("hosts", .list (hosts.map PyVal.str)),
   ("ports", .list (ports.map PyVal.str)),
   ("cluster_name", .str configuration.rbd_cluster_name),
   ("auth_enabled", .boolean configuration.rbd_user.isSome),
   ("auth_username", optStr configuration.rbd_user),
   ("secret_type", .str "ceph"),
   ("secret_uuid", optStr configuration.rbd_secret_uuid),
   ("volume_id", .str volume.id),
   ("encrypted", .boolean (pyTruthy (optStr volume.encryption_key_id))),
   ("do_local_attach", .boolean (pyTruthy (optStr volume.encryption_key_id)))]

/-- RBDDriver2.initialize_connection: builds the connection descriptor.  The
monitor addresses (hosts, ports) come from the external _get_mon_addrs query
and are taken as inputs. -/
def initialize_connection (configuration : Configuration)
    (hosts ports : List String) (volume : Volume) : PyVal :=
  PyVal.dict
    [("driver_volume_type", .str "rbd"),
     ("data", .dict (conn_data configuration hosts ports volume))]

/-- Result of connector.connect_volume, per the brick connector contract:
a device dictionary carrying the raw local device path. -/
structure ConnectResult where
  path : String
deriving DecidableEq, Repr

/-- The external brick connector object, as the driver uses it: fallible
connect_volume on the descriptor data, and fallible check_valid_device on a
path plus a root-access flag (any exception it raises is a PyErr). -/
structure Connector where
  connect_volume : PyVal → Except PyErr ConnectResult
  check_valid_device : String → Bool → Except PyErr Bool

/-- Observable host-side effects of the driver: the privileged
`ln --symbolic --force target link` and `rm --force path` commands run
through utils.execute, the LOG.exception diagnostic record emitted when
device validation raises, and each invocation of the connector's
check_valid_device. -/
inductive Effect where
  | lnSymbolicForce (target : String) (link : String)
  | rmForce (path : String)
  | logException (path : String)
  | checkValid (path : String) (rootAccess : Bool)
deriving DecidableEq, Repr

/-- The slice of host filesystem state this core writes: a map from path to
symlink target, plus the set of paths whose removal the host denies (e.g.
for permissions), used to model rm failures other than a missing file. -/
structure FS where
  files : List (String × String)
  noPerm : List String
deriving DecidableEq, Repr

/-- Whether a path exists in the modelled filesystem slice. -/
def FS.hasPath (fs : FS) (p : String) : Bool :=
  (fs.files.lookup p).isSome

/-- Effect of `ln --symbolic --force target link`: create the symlink,
replacing any existing entry at the link path (the --force semantics). -/
def lnForce (fs : FS) (target link : String) : FS :=
  { fs with files := (link, target) :: fs.files.filter (fun e => e.1 != link) }

/-- Effect of `rm --force path`: a missing path is not an error and leaves
the state unchanged; removal of a present path succeeds unless the host
denies it, in which case utils.execute raises ProcessExecutionError. -/
def rmForce (fs : FS) (p : String) : Except PyErr FS :=
  if fs.hasPath p then
    if p ∈ fs.noPerm then .error (.processExecutionError "rm" p)
    else .ok { fs with files := fs.files.filter (fun e => e.1 != p) }
  else .ok fs

/-- The value stored under the attach_info dictionary's device key: the
plaintext branch stores the bare raw path string, the encrypted branch
stores a one-key dictionary carrying the symlink path (the two branches of
the source build the attach_info literal differently). -/
inductive DeviceField where
  | rawStr (s : String)
  | pathDict (path : String)
deriving DecidableEq, Repr

/-- The attach_info record built by _connect_device: the descriptor under
the conn key, the device field, and the connector object for teardown. -/
structure AttachInfo where
  conn : PyVal
  device : DeviceField
  connector : Connector

/-- Python subscript attach_info's device value with the key string
`path`: succeeds on the dictionary form, raises TypeError on the bare
string form (a Python str only accepts integer indices). -/
def DeviceField.subscriptPath : DeviceField → Except PyErr String
  | .pathDict p => .ok p
  | .rawStr s => .error (.typeError s)

/-- The try/except block of _connect_device's validation step: unavailable
is initialised True; connector.check_valid_device is called; a normal
result inverts into unavailable; any exception is caught, logged via
LOG.exception, and leaves unavailable True.  Returns the final unavailable
flag together with the effects of the block. -/
def tryCheckValid (connector : Connector) (host_device : String)
    (root_access : Bool) : Bool × List Effect :=
  match connector.check_valid_device host_device root_access with
  | .ok valid => (!valid, [.checkValid host_device root_access])
  | .error _ =>
      (true, [.checkValid host_device root_access, .logException host_device])

/-- RBDDriver2._connect_device.  Parameters: the driver configuration, the
result of self.secure_file_operations_enabled(), the external
utils.brick_get_connector factory (applied to the protocol value, the two
transfer options and the descriptor), the descriptor conn, and the host
filesystem state.  Returns the effect trace, the resulting filesystem
state, and either the attach_info record or the raised exception.  Every
dictionary subscript of the source is an explicit pyGet; the guard
`unavailable and conn['encrypted']` short-circuits, so the top-level
encrypted lookup (and its possible KeyError) happens only when unavailable
is True. -/
def connect_device (configuration : Configuration)
    (secure_file_operations_enabled : Bool)
    (brick_get_connector : PyVal → Bool → Nat → PyVal → Connector)
    (conn : PyVal) (fs : FS) : List Effect × FS × Except PyErr AttachInfo :=
  let use_multipath := configuration.use_multipath_for_image_xfer
  let device_scan_attempts := configuration.num_volume_device_scan_tries
  match pyGet conn "driver_volume_type" with
  | .error e => ([], fs, .error e)
  | .ok protocol =>
    let connector :=
      brick_get_connector protocol use_multipath device_scan_attempts conn
    match pyGet conn "data" with
    | .error e => ([], fs, .error e)
    | .ok dataVal =>
      match connector.connect_volume dataVal with
      | .error e => ([], fs, .error e)
      | .ok device =>
        let attach_info : AttachInfo :=
          ⟨conn, .rawStr device.path, connector⟩
        match pyGet dataVal "encrypted" with
        | .error e => ([], fs, .error e)
        | .ok encVal =>
          if pyTruthy encVal then
            -- encrypted branch: build the symlink, re-point attach_info;
            -- the following plaintext branch is then skipped
            match pyGet dataVal "volume_id" with
            | .error e => ([], fs, .error e)
            | .ok volumeIdVal =>
              let symlink_dev := "/dev/rbd-volume-" ++ formatVal volumeIdVal
              ([.lnSymbolicForce device.path symlink_dev],
               lnForce fs device.path symlink_dev,
               .ok ⟨conn, .pathDict symlink_dev, connector⟩)
          else
            -- plaintext branch: validate the device
            let host_device := device.path
            let root_access := !secure_file_operations_enabled
            let checked := tryCheckValid connector host_device root_access
            let unavailable := checked.1
            if unavailable then
              match pyGet conn "encrypted" with
              | .error e => (checked.2, fs, .error e)
              | .ok topEnc =>
                if pyTruthy topEnc then
                  (checked.2, fs, .error (.deviceUnavailable host_device))
                else (checked.2, fs, .ok attach_info)
            else (checked.2, fs, .ok attach_info)

/-- RBDDriver2._detach_volume.  The inherited base-class detach is an
external collaborator, taken as its effect trace and its outcome; the
override first delegates to it (a base failure propagates and nothing else
runs), then, when the record's descriptor data says encrypted, removes the
device path with a privileged `rm --force`. -/
def detach_volume (baseEffects : List Effect)
    (baseResult : Except PyErr Unit) (attach_info : AttachInfo)
    (fs : FS) : List Effect × FS × Except PyErr Unit :=
  match baseResult with
  | .error e => (baseEffects, fs, .error e)
  | .ok _ =>
    match pyGet attach_info.conn "data" with
    | .error e => (baseEffects, fs, .error e)
    | .ok dataVal =>
      match pyGet dataVal "encrypted" with
      | .error e => (baseEffects, fs, .error e)
      | .ok encVal =>
        if pyTruthy encVal then
          match attach_info.device.subscriptPath with
          | .error e => (baseEffects, fs, .error e)
          | .ok p =>
            match rmForce fs p with
            | .ok fs2 => (baseEffects ++ [.rmForce p], fs2, .ok ())
            | .error e => (baseEffects ++ [.rmForce p], fs, .error e)
        else (baseEffects, fs, .ok ())

/-- Convenience accessor: subscript the descriptor's data dictionary, then
a field of it, propagating either KeyError (Python
`conn['data'][k]`). -/
def dataGet (conn : PyVal) (k : String) : Except PyErr PyVal :=
  match pyGet conn "data" with
  | .ok d => pyGet d k
  | .error e => .error e

/- Concrete fixtures, matching the spec's Scenario A and B data, used by
counterexamples and witnesses. -/

/-- Scenario A configuration: pool rbd, cluster ceph, user cinder, secret
abc. -/
def cfgA : Configuration := ⟨"rbd", "ceph", some "cinder", some "abc", false, 3⟩

/-- A configuration whose rbd_user option is set to the empty string. -/
def cfgEmptyUser : Configuration := ⟨"rbd", "ceph", some "", some "abc", false, 3⟩

/-- A configuration whose rbd_user option is unset (None). -/
def cfgNoUser : Configuration := ⟨"rbd", "ceph", Option.none, some "abc", false, 3⟩

/-- Scenario A volume: plaintext (no encryption key). -/
def volPlain : Volume := ⟨"volume-vol1", "vol1", Option.none⟩

/-- Scenario B volume: encrypted (encryption key key1). -/
def volEnc : Volume := ⟨"volume-vol2", "vol2", some "key1"⟩

/-- A volume whose encryption_key_id attribute is the empty string: the
reference is set (not None) yet Python-falsy. -/
def volEmptyKey : Volume := ⟨"volume-vol3", "vol3", some ""⟩

/-- A connector that attaches at /dev/rbd0 and validates the device. -/
def okConn : Connector := ⟨fun _ => .ok ⟨"/dev/rbd0"⟩, fun _ _ => .ok true⟩

/-- A connector that attaches at /dev/rbd0 but reports the device
invalid. -/
def badConn : Connector := ⟨fun _ => .ok ⟨"/dev/rbd0"⟩, fun _ _ => .ok false⟩

/-- A connector whose validation call raises. -/
def raiseConn : Connector :=
  ⟨fun _ => .ok ⟨"/dev/rbd0"⟩, fun _ _ => .error (.connectorError "boom")⟩

/-- A connector whose connect_volume call fails. -/
def failConn : Connector :=
  ⟨fun _ => .error (.connectorError "no transport"), fun _ _ => .ok true⟩

/-- A brick_get_connector factory returning a fixed connector. -/
def brickOf (c : Connector) : PyVal → Bool → Nat → PyVal → Connector :=
  fun _ _ _ _ => c

/-- An empty host filesystem slice. -/
def fs0 : FS := ⟨[], []⟩

/-- The Scenario A (plaintext) descriptor. -/
def connA : PyVal := initialize_connection cfgA ["h1"] ["6789"] volPlain

/-- The Scenario B (encrypted) descriptor. -/
def connE : PyVal := initialize_connection cfgA ["h1"] ["6789"] volEnc

/-- The attach record of a Scenario B attach through okConn. -/
def aiE : AttachInfo := ⟨connE, .pathDict "/dev/rbd-volume-vol2", okConn⟩

/-- The attach record of a Scenario A attach through okConn. -/
def aiP : AttachInfo := ⟨connA, .rawStr "/dev/rbd0", okConn⟩

/-- A filesystem holding the Scenario B symlink. -/
def fsE : FS := ⟨[("/dev/rbd-volume-vol2", "/dev/rbd0")], []⟩

/-- A filesystem holding the Scenario B symlink with removal denied. -/
def fsPerm : FS :=
  ⟨[("/dev/rbd-volume-vol2", "/dev/rbd0")], ["/dev/rbd-volume-vol2"]⟩

/- Helper lemmas about the descriptor's dictionary shape. -/

/-- The descriptor's top-level driver_volume_type entry. -/
theorem pyGet_init_dvt (cfg : Configuration) (hosts ports : List String)
    (vol : Volume) :
    pyGet (initialize_connection cfg hosts ports vol) "driver_volume_type" =
      .ok (.str "rbd") := rfl

/-- The descriptor's top-level data entry. -/
theorem pyGet_init_data (cfg : Configuration) (hosts ports : List String)
    (vol : Volume) :
    pyGet (initialize_connection cfg hosts ports vol) "data" =
      .ok (.dict (conn_data cfg hosts ports vol)) := rfl

/-- The descriptor has no top-level encrypted key, so the subscript raises
KeyError. -/
theorem pyGet_init_top_encrypted (cfg : Configuration)
    (hosts ports : List String) (vol : Volume) :
    pyGet (initialize_connection cfg hosts ports vol) "encrypted" =
      .error (.keyError "encrypted") := rfl

/-- The data dictionary's encrypted entry. -/
theorem conn_data_encrypted (cfg : Configuration) (hosts ports : List String)
    (vol : Volume) :
    pyGet (.dict (conn_data cfg hosts ports vol)) "encrypted" =
      .ok (.boolean (pyTruthy (optStr vol.encryption_key_id))) := rfl

/-- The data dictionary's do_local_attach entry. -/
theorem conn_data_do_local_attach (cfg : Configuration)
    (hosts ports : List String) (vol : Volume) :
    pyGet (.dict (conn_data cfg hosts ports vol)) "do_local_attach" =
      .ok (.boolean (pyTruthy (optStr vol.encryption_key_id))) := rfl

/-- The data dictionary's volume_id entry. -/
theorem conn_data_volume_id (cfg : Configuration) (hosts ports : List String)
    (vol : Volume) :
    pyGet (.dict (conn_data cfg hosts ports vol)) "volume_id" =
      .ok (.str vol.id) := rfl

/-- The data dictionary's auth_enabled entry. -/
theorem conn_data_auth_enabled (cfg : Configuration)
    (hosts ports : List String) (vol : Volume) :
    pyGet (.dict (conn_data cfg hosts ports vol)) "auth_enabled" =
      .ok (.boolean cfg.rbd_user.isSome) := rfl

/-- The data dictionary's auth_username entry. -/
theorem conn_data_auth_username (cfg : Configuration)
    (hosts ports : List String) (vol : Volume) :
    pyGet (.dict (conn_data cfg hosts ports vol)) "auth_username" =
      .ok (optStr cfg.rbd_user) := rfl

/-- C3, counterexample: a volume whose encryption_key_id is the empty
string has an encryption-key reference present (the attribute is not None),
yet the built descriptor's encrypted and do_local_attach payload fields are
both False, because the source tests Python truthiness and the empty string
is falsy. -/
theorem C3_cex :
    volEmptyKey.encryption_key_id.isSome = true ∧
    dataGet (initialize_connection cfgA ["h1"] ["6789"] volEmptyKey)
        "encrypted" = .ok (.boolean false) ∧
    dataGet (initialize_connection cfgA ["h1"] ["6789"] volEmptyKey)
        "do_local_attach" = .ok (.boolean false) :=
  ⟨rfl, rfl, rfl⟩

/-- C3, amended: in every descriptor built by initialize_connection the
payload fields encrypted and do_local_attach are both the Python truthiness
of the volume's encryption_key_id attribute — both true when the reference
is set and non-empty, both false otherwise (in particular when it is set to
the empty string); hence encrypted equals do_local_attach always. -/
theorem C3_encrypted_do_local_attach (cfg : Configuration)
    (hosts ports : List String) (vol : Volume) :
    dataGet (initialize_connection cfg hosts ports vol) "encrypted" =
      .ok (.boolean (pyTruthy (optStr vol.encryption_key_id))) ∧
    dataGet (initialize_connection cfg hosts ports vol) "do_local_attach" =
      .ok (.boolean (pyTruthy (optStr vol.encryption_key_id))) :=
  ⟨rfl, rfl⟩

/-- C4, counterexample: a configuration whose rbd_user option is set to the
empty string — an empty, hence not non-empty, auth username — still yields
auth_enabled True, because the source tests `rbd_user is not None`, not
emptiness. -/
theorem C4_cex :
    cfgEmptyUser.rbd_user = some "" ∧
    dataGet (initialize_connection cfgEmptyUser ["h1"] ["6789"] volPlain)
        "auth_enabled" = .ok (.boolean true) :=
  ⟨rfl, rfl⟩

/-- C4, amended: in every descriptor built by initialize_connection the
payload field auth_enabled is true iff the configured rbd_user option is
set (is not None), regardless of whether the string is empty. -/
theorem C4_auth_enabled (cfg : Configuration) (hosts ports : List String)
    (vol : Volume) :
    dataGet (initialize_connection cfg hosts ports vol) "auth_enabled" =
      .ok (.boolean cfg.rbd_user.isSome) :=
  rfl

/-- C5, counterexample: with rbd_user unset, auth is disabled
(auth_enabled is False) and yet the auth_username key is present in the
payload, bound to None — the source's dictionary literal always includes
the key. -/
theorem C5_cex :
    dataGet (initialize_connection cfgNoUser ["h1"] ["6789"] volPlain)
        "auth_enabled" = .ok (.boolean false) ∧
    dataGet (initialize_connection cfgNoUser ["h1"] ["6789"] volPlain)
        "auth_username" = .ok PyVal.pyNone :=
  ⟨rfl, rfl⟩

/-- C5, amended: in every descriptor built by initialize_connection the
auth_username key is always present in the payload, holding the raw
rbd_user value; its value is not None exactly when auth_enabled is
true. -/
theorem C5_auth_username_always_present (cfg : Configuration)
    (hosts ports : List String) (vol : Volume) :
    dataGet (initialize_connection cfg hosts ports vol) "auth_username" =
      .ok (optStr cfg.rbd_user) ∧
    (dataGet (initialize_connection cfg hosts ports vol) "auth_enabled" =
        .ok (.boolean true) ↔ optStr cfg.rbd_user ≠ PyVal.pyNone) := by
  refine ⟨rfl, ?_⟩
  have h : dataGet (initialize_connection cfg hosts ports vol)
      "auth_enabled" = .ok (.boolean cfg.rbd_user.isSome) := rfl
  rw [h]
  cases hu : cfg.rbd_user with
  | none => simp [optStr]
  | some s => simp [optStr]

/- Helper lemmas evaluating _connect_device on descriptors built by
initialize_connection, shared by several claim proofs. -/

/-- Truthiness of an embedded boolean is the boolean itself. -/
theorem pyTruthy_boolean (b : Bool) : pyTruthy (.boolean b) = b := rfl

/-- The validation block's effect trace is the check alone on a normal
return, or the check followed by the LOG.exception record when the check
raised; in particular it never holds a symlink command. -/
theorem tryCheckValid_trace (connector : Connector) (hd : String)
    (r : Bool) :
    (tryCheckValid connector hd r).2 = [.checkValid hd r] ∨
    (tryCheckValid connector hd r).2 =
      [.checkValid hd r, .logException hd] := by
  unfold tryCheckValid
  rcases connector.check_valid_device hd r with _ | _ <;> simp

/-- Evaluation of _connect_device on an encrypted descriptor with a
successful connector: the symlink command runs, the filesystem gains the
symlink, and the attach_info carries the symlink path dictionary. -/
theorem connect_device_encrypted (cfg : Configuration) (sec : Bool)
    (brick : PyVal → Bool → Nat → PyVal → Connector)
    (hosts ports : List String) (vol : Volume) (connector : Connector)
    (dev : ConnectResult) (fs : FS)
    (hbk : brick (.str "rbd") cfg.use_multipath_for_image_xfer
      cfg.num_volume_device_scan_tries
      (initialize_connection cfg hosts ports vol) = connector)
    (henc : pyTruthy (optStr vol.encryption_key_id) = true)
    (hconn : connector.connect_volume (.dict (conn_data cfg hosts ports vol))
      = .ok dev) :
    connect_device cfg sec brick (initialize_connection cfg hosts ports vol)
        fs =
      ([.lnSymbolicForce dev.path ("/dev/rbd-volume-" ++ vol.id)],
       lnForce fs dev.path ("/dev/rbd-volume-" ++ vol.id),
       .ok ⟨initialize_connection cfg hosts ports vol,
            .pathDict ("/dev/rbd-volume-" ++ vol.id), connector⟩) := by
  simp only [connect_device, pyGet_init_dvt, pyGet_init_data, hbk, hconn,
    conn_data_encrypted, conn_data_volume_id, pyTruthy_boolean, henc,
    formatVal, if_true]

/-- Evaluation of _connect_device on a plaintext descriptor with a
successful connector: the validation block runs, and either the guard's
top-level encrypted lookup raises KeyError (device unavailable) or the
attach_info carrying the bare raw path is returned. -/
theorem connect_device_plaintext (cfg : Configuration) (sec : Bool)
    (brick : PyVal → Bool → Nat → PyVal → Connector)
    (hosts ports : List String) (vol : Volume) (connector : Connector)
    (dev : ConnectResult) (fs : FS)
    (hbk : brick (.str "rbd") cfg.use_multipath_for_image_xfer
      cfg.num_volume_device_scan_tries
      (initialize_connection cfg hosts ports vol) = connector)
    (hnenc : pyTruthy (optStr vol.encryption_key_id) = false)
    (hconn : connector.connect_volume (.dict (conn_data cfg hosts ports vol))
      = .ok dev) :
    connect_device cfg sec brick (initialize_connection cfg hosts ports vol)
        fs =
      (if (tryCheckValid connector dev.path (!sec)).1 then
        ((tryCheckValid connector dev.path (!sec)).2, fs,
         .error (.keyError "encrypted"))
      else
        ((tryCheckValid connector dev.path (!sec)).2, fs,
         .ok ⟨initialize_connection cfg hosts ports vol,
              .rawStr dev.path, connector⟩)) := by
  simp only [connect_device, pyGet_init_dvt, pyGet_init_data, hbk, hconn,
    conn_data_encrypted, pyTruthy_boolean, hnenc, pyGet_init_top_encrypted,
    Bool.false_eq_true, if_false]

/-- C9: when the connector's connect_volume call fails, _connect_device
propagates the failure unchanged, performs no host effect (in particular
creates no symlink), leaves the filesystem untouched, and returns no attach
record. -/
theorem C9_connect_failure_propagates (cfg : Configuration) (sec : Bool)
    (brick : PyVal → Bool → Nat → PyVal → Connector)
    (hosts ports : List String) (vol : Volume) (connector : Connector)
    (fs : FS) (e : PyErr)
    (hbk : brick (.str "rbd") cfg.use_multipath_for_image_xfer
      cfg.num_volume_device_scan_tries
      (initialize_connection cfg hosts ports vol) = connector)
    (hconn : connector.connect_volume (.dict (conn_data cfg hosts ports vol))
      = .error e) :
    connect_device cfg sec brick (initialize_connection cfg hosts ports vol)
        fs = ([], fs, .error e) := by
  simp only [connect_device, pyGet_init_dvt, pyGet_init_data, hbk, hconn]

/-- C9, witness: Scenario D with a connector whose transport fails. -/
theorem C9_witness :
    connect_device cfgA false (brickOf failConn) connE fs0 =
      ([], fs0, .error (.connectorError "no transport")) :=
  C9_connect_failure_propagates cfgA false (brickOf failConn) ["h1"]
    ["6789"] volEnc failConn fs0 (.connectorError "no transport") rfl rfl

/-- C2: attaching an encrypted volume with id V yields an attach record
whose exposed device path is the deterministic symlink path
/dev/rbd-volume-V regardless of the raw connector path, the filesystem then
maps that symlink to the raw path, and the connector's check_valid_device
is never invoked on this branch (the effect trace holds only the symlink
command). -/
theorem C2_encrypted_attach (cfg : Configuration) (sec : Bool)
    (brick : PyVal → Bool → Nat → PyVal → Connector)
    (hosts ports : List String) (vol : Volume) (connector : Connector)
    (dev : ConnectResult) (fs : FS)
    (hbk : brick (.str "rbd") cfg.use_multipath_for_image_xfer
      cfg.num_volume_device_scan_tries
      (initialize_connection cfg hosts ports vol) = connector)
    (henc : pyTruthy (optStr vol.encryption_key_id) = true)
    (hconn : connector.connect_volume (.dict (conn_data cfg hosts ports vol))
      = .ok dev) :
    connect_device cfg sec brick (initialize_connection cfg hosts ports vol)
        fs =
      ([.lnSymbolicForce dev.path ("/dev/rbd-volume-" ++ vol.id)],
       lnForce fs dev.path ("/dev/rbd-volume-" ++ vol.id),
       .ok ⟨initialize_connection cfg hosts ports vol,
            .pathDict ("/dev/rbd-volume-" ++ vol.id), connector⟩) ∧
    (lnForce fs dev.path ("/dev/rbd-volume-" ++ vol.id)).files.lookup
        ("/dev/rbd-volume-" ++ vol.id) = some dev.path ∧
    ∀ q r, Effect.checkValid q r ∉
      (connect_device cfg sec brick
        (initialize_connection cfg hosts ports vol) fs).1 := by
  have hmain := connect_device_encrypted cfg sec brick hosts ports vol
    connector dev fs hbk henc hconn
  refine ⟨hmain, ?_, ?_⟩
  · simp [lnForce, List.lookup]
  · intro q r
    rw [hmain]
    simp

/-- C2, witness: Scenario B attach through okConn yields the symlink record
and the symlink maps to the raw path. -/
theorem C2_witness :
    connect_device cfgA false (brickOf okConn) connE fs0 =
      ([.lnSymbolicForce "/dev/rbd0" "/dev/rbd-volume-vol2"], fsE,
       .ok ⟨connE, .pathDict "/dev/rbd-volume-vol2", okConn⟩) ∧
    fsE.files.lookup "/dev/rbd-volume-vol2" = some "/dev/rbd0" :=
  let H := C2_encrypted_attach cfgA false (brickOf okConn) ["h1"] ["6789"]
    volEnc okConn ⟨"/dev/rbd0"⟩ fs0 rfl rfl rfl
  ⟨H.1, H.2.1⟩

/-- C1, counterexample: on the Scenario A/C plaintext attach whose
connector reports the device invalid, _connect_device does not complete
normally returning the attach record — it raises.  The guard
`unavailable and conn['encrypted']` evaluates its right operand because
unavailable is True, and the descriptor has no top-level encrypted key, so
the lookup raises KeyError. -/
theorem C1_cex :
    pyTruthy (optStr volPlain.encryption_key_id) = false ∧
    badConn.check_valid_device "/dev/rbd0" true = .ok false ∧
    (connect_device cfgA false (brickOf badConn) connA fs0).2.2 =
      .error (.keyError "encrypted") :=
  ⟨rfl, rfl, rfl⟩

/-- C1, amended: on every plaintext attach in which the connector's
check_valid_device returns false, the device is classified unavailable, and
_connect_device then raises a KeyError for the descriptor's missing
top-level encrypted key (from the guard's short-circuited right operand)
instead of completing normally; the DeviceUnavailable condition itself is
never raised on this path. -/
theorem C1_plaintext_invalid_raises_keyerror (cfg : Configuration)
    (sec : Bool) (brick : PyVal → Bool → Nat → PyVal → Connector)
    (hosts ports : List String) (vol : Volume) (connector : Connector)
    (dev : ConnectResult) (fs : FS)
    (hbk : brick (.str "rbd") cfg.use_multipath_for_image_xfer
      cfg.num_volume_device_scan_tries
      (initialize_connection cfg hosts ports vol) = connector)
    (hnenc : pyTruthy (optStr vol.encryption_key_id) = false)
    (hconn : connector.connect_volume (.dict (conn_data cfg hosts ports vol))
      = .ok dev)
    (hcheck : connector.check_valid_device dev.path (!sec) = .ok false) :
    (tryCheckValid connector dev.path (!sec)).1 = true ∧
    connect_device cfg sec brick (initialize_connection cfg hosts ports vol)
        fs =
      ([.checkValid dev.path (!sec)], fs, .error (.keyError "encrypted")) := by
  have hcv : tryCheckValid connector dev.path (!sec) =
      (true, [.checkValid dev.path (!sec)]) := by
    simp [tryCheckValid, hcheck]
  refine ⟨by rw [hcv], ?_⟩
  rw [connect_device_plaintext cfg sec brick hosts ports vol connector dev fs
    hbk hnenc hconn, hcv]
  simp

/-- C1, witness: the amended behavior at the Scenario A/C input. -/
theorem C1_witness :
    (tryCheckValid badConn "/dev/rbd0" true).1 = true ∧
    connect_device cfgA false (brickOf badConn) connA fs0 =
      ([.checkValid "/dev/rbd0" true], fs0, .error (.keyError "encrypted")) :=
  C1_plaintext_invalid_raises_keyerror cfgA false (brickOf badConn) ["h1"]
    ["6789"] volPlain badConn ⟨"/dev/rbd0"⟩ fs0 rfl rfl rfl rfl

/-- C7: when the connector's check_valid_device call raises any exception e
on a plaintext attach, the exception is caught: the device is classified
unavailable (the try/except block yields unavailable = True), the exception
is recorded for diagnostics (a LOG.exception effect is in the trace), and e
itself is not re-raised — the outcome of _connect_device is the guard's
KeyError for the missing top-level encrypted key, the same for every e. -/
theorem C7_validation_exception_swallowed (cfg : Configuration) (sec : Bool)
    (brick : PyVal → Bool → Nat → PyVal → Connector)
    (hosts ports : List String) (vol : Volume) (connector : Connector)
    (dev : ConnectResult) (fs : FS) (e : PyErr)
    (hbk : brick (.str "rbd") cfg.use_multipath_for_image_xfer
      cfg.num_volume_device_scan_tries
      (initialize_connection cfg hosts ports vol) = connector)
    (hnenc : pyTruthy (optStr vol.encryption_key_id) = false)
    (hconn : connector.connect_volume (.dict (conn_data cfg hosts ports vol))
      = .ok dev)
    (hcheck : connector.check_valid_device dev.path (!sec) = .error e) :
    (tryCheckValid connector dev.path (!sec)).1 = true ∧
    Effect.logException dev.path ∈
      (connect_device cfg sec brick
        (initialize_connection cfg hosts ports vol) fs).1 ∧
    connect_device cfg sec brick (initialize_connection cfg hosts ports vol)
        fs =
      ([.checkValid dev.path (!sec), .logException dev.path], fs,
       .error (.keyError "encrypted")) := by
  have hcv : tryCheckValid connector dev.path (!sec) =
      (true, [.checkValid dev.path (!sec), .logException dev.path]) := by
    simp [tryCheckValid, hcheck]
  have hmain : connect_device cfg sec brick
      (initialize_connection cfg hosts ports vol) fs =
      ([.checkValid dev.path (!sec), .logException dev.path], fs,
       .error (.keyError "encrypted")) := by
    rw [connect_device_plaintext cfg sec brick hosts ports vol connector dev
      fs hbk hnenc hconn, hcv]
    simp
  refine ⟨by rw [hcv], ?_, hmain⟩
  rw [hmain]
  simp

/-- C7, witness: the raising connector at the Scenario A input. -/
theorem C7_witness :
    (tryCheckValid raiseConn "/dev/rbd0" true).1 = true ∧
    Effect.logException "/dev/rbd0" ∈
      (connect_device cfgA false (brickOf raiseConn) connA fs0).1 ∧
    connect_device cfgA false (brickOf raiseConn) connA fs0 =
      ([.checkValid "/dev/rbd0" true, .logException "/dev/rbd0"], fs0,
       .error (.keyError "encrypted")) :=
  C7_validation_exception_swallowed cfgA false (brickOf raiseConn) ["h1"]
    ["6789"] volPlain raiseConn ⟨"/dev/rbd0"⟩ fs0
    (.connectorError "boom") rfl rfl rfl rfl

/-- C6: whenever a plaintext attach completes and returns an attach record,
the record's exposed device value is exactly the bare raw device path
returned by the connector's connect_volume, the filesystem is unchanged,
and no symlink command appears in the effect trace. -/
theorem C6_plaintext_exposes_raw_path (cfg : Configuration) (sec : Bool)
    (brick : PyVal → Bool → Nat → PyVal → Connector)
    (hosts ports : List String) (vol : Volume) (connector : Connector)
    (dev : ConnectResult) (fs : FS) (ai : AttachInfo)
    (hbk : brick (.str "rbd") cfg.use_multipath_for_image_xfer
      cfg.num_volume_device_scan_tries
      (initialize_connection cfg hosts ports vol) = connector)
    (hnenc : pyTruthy (optStr vol.encryption_key_id) = false)
    (hconn : connector.connect_volume (.dict (conn_data cfg hosts ports vol))
      = .ok dev)
    (hok : (connect_device cfg sec brick
      (initialize_connection cfg hosts ports vol) fs).2.2 = .ok ai) :
    ai.device = .rawStr dev.path ∧
    (connect_device cfg sec brick (initialize_connection cfg hosts ports vol)
        fs).2.1 = fs ∧
    ∀ a b, Effect.lnSymbolicForce a b ∉
      (connect_device cfg sec brick
        (initialize_connection cfg hosts ports vol) fs).1 := by
  have hmain := connect_device_plaintext cfg sec brick hosts ports vol
    connector dev fs hbk hnenc hconn
  rcases hu : (tryCheckValid connector dev.path (!sec)).1 with _ | _
  · have hres : connect_device cfg sec brick
        (initialize_connection cfg hosts ports vol) fs =
        ((tryCheckValid connector dev.path (!sec)).2, fs,
         .ok ⟨initialize_connection cfg hosts ports vol,
              .rawStr dev.path, connector⟩) := by
      rw [hmain, hu]
      simp
    rw [hres] at hok
    simp only [Except.ok.injEq] at hok
    refine ⟨?_, ?_, ?_⟩
    · rw [← hok]
    · rw [hres]
    · intro a b
      rw [hres]
      rcases tryCheckValid_trace connector dev.path (!sec) with h | h <;>
        rw [h] <;> simp
  · have hres : connect_device cfg sec brick
        (initialize_connection cfg hosts ports vol) fs =
        ((tryCheckValid connector dev.path (!sec)).2, fs,
         .error (.keyError "encrypted")) := by
      rw [hmain, hu]
      simp
    rw [hres] at hok
    simp at hok

/-- C6, witness: Scenario A attach through okConn returns the bare raw
path. -/
theorem C6_witness :
    aiP.device = .rawStr "/dev/rbd0" ∧
    (connect_device cfgA false (brickOf okConn) connA fs0).2.1 = fs0 :=
  let H := C6_plaintext_exposes_raw_path cfgA false (brickOf okConn) ["h1"]
    ["6789"] volPlain okConn ⟨"/dev/rbd0"⟩ fs0 aiP rfl rfl rfl rfl
  ⟨H.1, H.2.1⟩

/-- After filtering out every entry keyed by p, a lookup of p finds
nothing. -/
theorem lookup_filter_self (l : List (String × String)) (p : String) :
    (l.filter (fun e => e.1 != p)).lookup p = none := by
  induction l with
  | nil => rfl
  | cons a t ih =>
    rcases a with ⟨k, v⟩
    by_cases h : k = p
    · subst h
      simpa using ih
    · have hkp : ((k, v).1 != p) = true := by
        simpa [bne_iff_ne] using h
      have hpk : (p == k) = false := by
        simpa using Ne.symm h
      simp [List.filter_cons, hkp, List.lookup, hpk, ih]

/-- C10: detaching a record whose descriptor data says the volume is not
encrypted performs only the inherited base detach — the override adds no
effect, runs no rm command, and leaves the filesystem slice exactly as the
base left it; the base outcome passes through unchanged. -/
theorem C10_plaintext_detach_frame (baseEffects : List Effect)
    (baseResult : Except PyErr Unit) (ai : AttachInfo) (fs : FS)
    (dataVal encVal : PyVal)
    (hdata : pyGet ai.conn "data" = .ok dataVal)
    (henc : pyGet dataVal "encrypted" = .ok encVal)
    (hfalse : pyTruthy encVal = false) :
    detach_volume baseEffects baseResult ai fs =
      (baseEffects, fs, baseResult) := by
  cases baseResult with
  | error e => rfl
  | ok u =>
    cases u
    simp only [detach_volume, hdata, henc, hfalse, Bool.false_eq_true,
      if_false]

/-- C10, witness: detaching the Scenario A plaintext record adds nothing to
the base detach. -/
theorem C10_witness :
    detach_volume [] (.ok ()) aiP fsE = ([], fsE, .ok ()) :=
  C10_plaintext_detach_frame [] (.ok ()) aiP fsE
    (.dict (conn_data cfgA ["h1"] ["6789"] volPlain)) (.boolean false)
    rfl rfl rfl

/-- C8: for the attach record returned by an encrypted attach of the volume
with id V (whose device entry is the symlink path /dev/rbd-volume-V), and
with the base detach succeeding: (1) when the host does not deny the
removal, detach runs the forcing rm command and afterwards the symlink path
is gone, with no error; (2) on a filesystem where the symlink is already
absent — e.g. a second detach of the same record — the forcing removal
still succeeds, raising nothing; (3) when the path is present but its
removal is denied (a non-missing-file failure such as permissions), the
ProcessExecutionError propagates out of detach. -/
theorem C8_encrypted_detach_removes_symlink (cfg : Configuration)
    (sec : Bool) (brick : PyVal → Bool → Nat → PyVal → Connector)
    (hosts ports : List String) (vol : Volume) (connector : Connector)
    (dev : ConnectResult) (fs1 : FS) (ai : AttachInfo)
    (baseEffects : List Effect)
    (hbk : brick (.str "rbd") cfg.use_multipath_for_image_xfer
      cfg.num_volume_device_scan_tries
      (initialize_connection cfg hosts ports vol) = connector)
    (henc : pyTruthy (optStr vol.encryption_key_id) = true)
    (hconn : connector.connect_volume (.dict (conn_data cfg hosts ports vol))
      = .ok dev)
    (hai : (connect_device cfg sec brick
      (initialize_connection cfg hosts ports vol) fs1).2.2 = .ok ai) :
    ai.device = .pathDict ("/dev/rbd-volume-" ++ vol.id) ∧
    (∀ fs : FS, ("/dev/rbd-volume-" ++ vol.id) ∉ fs.noPerm →
      (detach_volume baseEffects (.ok ()) ai fs).2.2 = .ok () ∧
      Effect.rmForce ("/dev/rbd-volume-" ++ vol.id) ∈
        (detach_volume baseEffects (.ok ()) ai fs).1 ∧
      ((detach_volume baseEffects (.ok ()) ai fs).2.1).hasPath
        ("/dev/rbd-volume-" ++ vol.id) = false) ∧
    (∀ fs : FS, fs.hasPath ("/dev/rbd-volume-" ++ vol.id) = false →
      detach_volume baseEffects (.ok ()) ai fs =
        (baseEffects ++ [.rmForce ("/dev/rbd-volume-" ++ vol.id)], fs,
         .ok ())) ∧
    (∀ fs : FS, fs.hasPath ("/dev/rbd-volume-" ++ vol.id) = true →
      ("/dev/rbd-volume-" ++ vol.id) ∈ fs.noPerm →
      (detach_volume baseEffects (.ok ()) ai fs).2.2 =
        .error (.processExecutionError "rm"
          ("/dev/rbd-volume-" ++ vol.id))) := by
  rw [connect_device_encrypted cfg sec brick hosts ports vol connector dev
    fs1 hbk henc hconn] at hai
  simp only [Except.ok.injEq] at hai
  subst hai
  have hdetach : ∀ fs : FS,
      detach_volume baseEffects (.ok ())
        ⟨initialize_connection cfg hosts ports vol,
         .pathDict ("/dev/rbd-volume-" ++ vol.id), connector⟩ fs =
      (match rmForce fs ("/dev/rbd-volume-" ++ vol.id) with
       | .ok fs2 =>
         (baseEffects ++ [.rmForce ("/dev/rbd-volume-" ++ vol.id)], fs2,
          .ok ())
       | .error e =>
         (baseEffects ++ [.rmForce ("/dev/rbd-volume-" ++ vol.id)], fs,
          .error e)) := by
    intro fs
    simp only [detach_volume, pyGet_init_data, conn_data_encrypted,
      pyTruthy_boolean, henc, if_true, DeviceField.subscriptPath]
  refine ⟨rfl, ?_, ?_, ?_⟩
  · intro fs hnp
    by_cases hp : fs.hasPath ("/dev/rbd-volume-" ++ vol.id)
    · have hrm : rmForce fs ("/dev/rbd-volume-" ++ vol.id) =
          .ok ⟨fs.files.filter
                 (fun e => e.1 != "/dev/rbd-volume-" ++ vol.id),
               fs.noPerm⟩ := by
        simp [rmForce, hp, hnp]
      rw [hdetach fs, hrm]
      refine ⟨rfl, by simp, ?_⟩
      simp [FS.hasPath, lookup_filter_self]
    · have hrm : rmForce fs ("/dev/rbd-volume-" ++ vol.id) = .ok fs := by
        simp [rmForce, hp]
      rw [hdetach fs, hrm]
      refine ⟨rfl, by simp, ?_⟩
      simpa using hp
  · intro fs hfs
    have hrm : rmForce fs ("/dev/rbd-volume-" ++ vol.id) = .ok fs := by
      simp [rmForce, hfs]
    rw [hdetach fs, hrm]
  · intro fs hfs hmem
    have hrm : rmForce fs ("/dev/rbd-volume-" ++ vol.id) =
        .error (.processExecutionError "rm"
          ("/dev/rbd-volume-" ++ vol.id)) := by
      simp [rmForce, hfs, hmem]
    rw [hdetach fs, hrm]

/-- C8, witness: detaching the Scenario B record removes the symlink, a
second detach on the emptied filesystem raises nothing, and a denied
removal propagates ProcessExecutionError. -/
theorem C8_witness :
    aiE.device = .pathDict "/dev/rbd-volume-vol2" ∧
    (detach_volume [] (.ok ()) aiE fsE).2.2 = .ok () ∧
    Effect.rmForce "/dev/rbd-volume-vol2" ∈
      (detach_volume [] (.ok ()) aiE fsE).1 ∧
    ((detach_volume [] (.ok ()) aiE fsE).2.1).hasPath
      "/dev/rbd-volume-vol2" = false ∧
    detach_volume [] (.ok ()) aiE fs0 =
      ([Effect.rmForce "/dev/rbd-volume-vol2"], fs0, .ok ()) ∧
    (detach_volume [] (.ok ()) aiE fsPerm).2.2 =
      .error (.processExecutionError "rm" "/dev/rbd-volume-vol2") := by
  have H := C8_encrypted_detach_removes_symlink cfgA false (brickOf okConn)
    ["h1"] ["6789"] volEnc okConn ⟨"/dev/rbd0"⟩ fs0 aiE [] rfl rfl rfl rfl
  have h1 := H.2.1 fsE (by simp [fsE])
  have e1 : "/dev/rbd-volume-" ++ volEnc.id = "/dev/rbd-volume-vol2" := rfl
  rw [e1] at H h1
  exact ⟨H.1, h1.1, h1.2.1, h1.2.2, H.2.2.1 fs0 rfl,
    H.2.2.2 fsPerm rfl (by simp [fsPerm])⟩

end RBD2
